import Mathlib

/-!
Shallow embedding of the Power BI custom bar chart visual
(src/src/visual.ts, with near-identical variants under src/unnamed/).

The embedding models the JavaScript runtime semantics of the TypeScript
source: optional/absent fields become Option, out-of-bounds array reads
yield none (JavaScript undefined), a member access on undefined is a
thrown TypeError, and the numeric type is ℚ (the geometry never leaves
the rationals; a JavaScript NaN arising from arithmetic on undefined or
from a zero-length scale domain is modelled as none).
-/

namespace Barchart

/-- A JavaScript runtime value stored in a metadata property slot
(DataViewPropertyValue).  Only the shapes the visual can meet are
modelled: undefined, null, booleans, numbers, strings. -/
inductive JSValue where
  | undef : JSValue
  | nullv : JSValue
  | bool : Bool → JSValue
  | num : ℚ → JSValue
  | str : String → JSValue
deriving DecidableEq, Repr

/-- JavaScript loose equality with undefined: v == undefined holds exactly
for undefined and null.  getOptionValue tests property != undefined. -/
def JSValue.looseUndef : JSValue → Bool
  | .undef => true
  | .nullv => true
  | _ => false

/-- JavaScript truthiness, used by the source's if(settings.enableAxis.show). -/
def JSValue.truthy : JSValue → Bool
  | .undef => false
  | .nullv => false
  | .bool b => b
  | .num q => decide (q ≠ 0)
  | .str s => decide (s ≠ "")

/-- DataViewObject: one settings object, a property-name → value map. -/
abbrev DataViewObject := List (String × JSValue)

/-- DataViewObjects: the metadata.objects map, object-name → object. -/
abbrev DataViewObjects := List (String × DataViewObject)

/-- getOptionValue (visual.ts lines 52-67): searches objects[objectName]
[propertyName]; returns the property when objects and the named object
exist and the property is loosely distinct from undefined (so neither
undefined nor null), and the supplied default otherwise.  A missing key
in a JavaScript object reads as undefined, hence the getD .undef. -/
def getOptionValue (objects : Option DataViewObjects) (objectName : String)
    (propertyName : String) (defaultValue : JSValue) : JSValue :=
  match objects with
  | none => defaultValue
  | some objs =>
    match objs.lookup objectName with
    | none => defaultValue
    | some object =>
      let property : JSValue := (object.lookup propertyName).getD .undef
      if property.looseUndef then defaultValue else property

/-- One bar's datum (interface BarchartDataPoint).  value and category are
undefined (none) for row indices beyond the respective column's length.
The selection identity is the opaque token produced by the host's
createSelectionIdBuilder().withCategory(category, i).createSelectionId(). -/
structure BarchartDataPoint where
  value : Option ℚ
  category : Option String
  color : String
  selectionID : Nat
deriving DecidableEq, Repr

/-- interface BarchartSettings.  The source stores the raw value returned
by getOptionValue and every later use is a JavaScript truthiness test, so
the embedding resolves truthiness once at build time. -/
structure BarchartSettings where
  enableAxisShow : Bool
deriving DecidableEq, Repr

/-- interface BarchartViewModel.  dataMax is the raw <number>maxLocal cast,
which is undefined (none) when the host reports no maxLocal. -/
structure BarchartViewModel where
  dataPoints : List BarchartDataPoint
  dataMax : Option ℚ
  settings : BarchartSettings
deriving DecidableEq, Repr

/-- DataViewCategoryColumn: the category column, with its source descriptor
(only presence is relevant) and its values. -/
structure DataViewCategoryColumn where
  source : Option String
  values : List String
deriving DecidableEq, Repr

/-- DataViewValueColumn: the measure column with its reported maxLocal. -/
structure DataViewValueColumn where
  values : List ℚ
  maxLocal : Option ℚ
deriving DecidableEq, Repr

/-- DataViewCategorical: categories and values are optional arrays. -/
structure DataViewCategorical where
  categories : Option (List DataViewCategoryColumn)
  values : Option (List DataViewValueColumn)
deriving DecidableEq, Repr

/-- DataViewMetadata: objects is the optional settings map. -/
structure DataViewMetadata where
  objects : Option DataViewObjects
deriving DecidableEq, Repr

/-- DataView: the primary view, categorical section optional, metadata
always present (it is a required field of the host's DataView type). -/
structure DataView where
  categorical : Option DataViewCategorical
  metadata : DataViewMetadata
deriving DecidableEq, Repr

/-- VisualUpdateOptions: the host-supplied dataViews array (possibly
absent) and the viewport as (width, height). -/
structure VisualUpdateOptions where
  dataViews : Option (List DataView)
  viewport : ℚ × ℚ
deriving DecidableEq, Repr

/-- The external host services the visual consumes: the color palette
(getColor(key).value, total and deterministic per key) and the selection
identity factory keyed by row index in the single category column. -/
structure IVisualHost where
  getColor : Option String → String
  mkSelectionId : Nat → Nat

/-- The only runtime fault the source can raise: a member access on
undefined (e.g. categories[0].source when categories is an empty array). -/
inductive JSError where
  | typeError : JSError
deriving DecidableEq, Repr

/-- defaultSettings in visualTransform: enableAxis.show = false. -/
def defaultSettings : BarchartSettings := { enableAxisShow := false }

/-- dataInfo in visualTransform: the canonical empty view model. -/
def emptyViewModel : BarchartViewModel :=
  { dataPoints := [], dataMax := some 0, settings := defaultSettings }

/-- visualTransform (visual.ts lines 72-130).  The guard's short-circuit
order is kept exactly: !dataViews, !dataViews[0], !categorical,
!categorical.categories, !categorical.categories[0].source (which throws
a TypeError when categories is an empty array, since categories[0] is
then undefined), !categorical.values.  After the guard,
categorical.values[0] is dereferenced (dataValue.values.length), which
throws when values is an empty array.  The row loop runs over
0 ≤ i < max(category.values.length, dataValue.values.length), reading
out-of-range entries as undefined, and dataMax copies maxLocal verbatim. -/
def visualTransform (options : VisualUpdateOptions) (host : IVisualHost) :
    Except JSError BarchartViewModel :=
  match options.dataViews with
  | none => .ok emptyViewModel
  | some dvs =>
    match dvs.head? with
    | none => .ok emptyViewModel
    | some dv0 =>
      match dv0.categorical with
      | none => .ok emptyViewModel
      | some categorical =>
        match categorical.categories with
        | none => .ok emptyViewModel
        | some cats =>
          match cats.head? with
          | none => .error .typeError
          | some category =>
            if category.source.isNone then .ok emptyViewModel
            else
              match categorical.values with
              | none => .ok emptyViewModel
              | some vals =>
                match vals.head? with
                | none => .error .typeError
                | some dataValue =>
                  let objects := dv0.metadata.objects
                  let barchartSettings : BarchartSettings :=
                    { enableAxisShow := (getOptionValue objects "enableAxis" "show"
                        (.bool defaultSettings.enableAxisShow)).truthy }
                  let len := max category.values.length dataValue.values.length
                  let dataPoints : List BarchartDataPoint :=
                    (List.range len).map (fun i =>
                      { category := category.values[i]?
                        value := dataValue.values[i]?
                        color := host.getColor category.values[i]?
                        selectionID := host.mkSelectionId i })
                  .ok { dataPoints := dataPoints
                        dataMax := dataValue.maxLocal
                        settings := barchartSettings }

/-- d3.scale.linear().domain([0, m]).range([h, 0]) applied to v, i.e. the
inverted value scale of visual.ts lines 177-179.  none models a
non-finite JavaScript result: an undefined domain bound (maxLocal
missing), an undefined input (value column shorter than category
column), or the degenerate domain [0, 0]. -/
def linearScale (h : ℚ) (m : Option ℚ) (v : Option ℚ) : Option ℚ :=
  match m, v with
  | some m, some v => if m = 0 then none else some (h - v * h / m)
  | _, _ => none

/-- Order-preserving de-duplication keeping the first occurrence, as the
d3 v3 ordinal scale does when its domain is assigned a list. -/
def dedupFirstAux (seen : List (Option String)) :
    List (Option String) → List (Option String)
  | [] => []
  | x :: xs =>
    if x ∈ seen then dedupFirstAux seen xs
    else x :: dedupFirstAux (x :: seen) xs

/-- De-duplicated-by-first-occurrence domain of the category scale. -/
def dedupFirst (l : List (Option String)) : List (Option String) :=
  dedupFirstAux [] l

/-- The d3 v3 ordinal scale with rangeRoundBands([start, stop], padding,
outerPadding) as built in visual.ts lines 181-183: a banded category
scale with rounded integral step and band width. -/
structure BandScale where
  domain : List (Option String)
  start : ℚ
  stop : ℚ
  padding : ℚ
  outerPadding : ℚ
deriving DecidableEq, Repr

/-- The rounded step between consecutive bands (d3 v3 rangeRoundBands). -/
def BandScale.step (s : BandScale) : ℚ :=
  ((⌊(s.stop - s.start) /
      ((s.domain.length : ℚ) - s.padding + 2 * s.outerPadding)⌋ : ℤ) : ℚ)

/-- The rounding slack distributed around the bands (d3 v3). -/
def BandScale.err (s : BandScale) : ℚ :=
  s.stop - s.start - ((s.domain.length : ℚ) - s.padding) * s.step

/-- xScale.rangeBand(): the width of one band. -/
def BandScale.rangeBand (s : BandScale) : ℚ :=
  ((round (s.step * (1 - s.padding)) : ℤ) : ℚ)

/-- xScale(c): the left edge of the band of category c; none when c is
not in the domain (never the case for categories of bound data). -/
def BandScale.apply (s : BandScale) (c : Option String) : Option ℚ :=
  (s.domain.findIdx? (fun d => d == c)).map (fun i =>
    s.start + ((round (s.err / 2) : ℤ) : ℚ) + (i : ℚ) * s.step)

/-- height = viewport.height - 25 exactly when the axis is shown
(visual.ts lines 167-170); otherwise the full surface height. -/
def effectivePlotHeight (axisShown : Bool) (h : ℚ) : ℚ :=
  if axisShown then h - 25 else h

/-- One rendered rect.bar primitive: its bound datum and the attributes
set by visual.ts lines 199-205.  height, x and y are none when the
JavaScript computation yields NaN (undefined value) or a missing domain
entry; fillOpacity none means the attribute was never set (SVG default
1), since update never writes fill-opacity — only the click continuation
does. -/
structure BarPrim where
  datum : BarchartDataPoint
  width : ℚ
  height : Option ℚ
  x : Option ℚ
  y : Option ℚ
  fill : String
  fillOpacity : Option ℚ
deriving DecidableEq, Repr

/-- The xAxis group's state after update: its translate(0, height) anchor,
one tick per category-scale domain entry (d3.svg.axis().scale(xScale) is
called unconditionally in visual.ts lines 185-190), and the responsive
font size of lines 173-175. -/
structure AxisState where
  transformY : ℚ
  ticks : List (Option String)
  fontSize : ℚ
deriving DecidableEq, Repr

/-- The persisted renderer state: svg surface attributes, the chart
settings kept for the property pane, the bar primitives inside
barContainer, and the xAxis group. -/
structure VisualState where
  svgWidth : ℚ
  svgHeight : ℚ
  chartSettings : BarchartSettings
  bars : List BarPrim
  xAxis : AxisState
deriving DecidableEq, Repr

/-- The attributes written to one bar for datum dp (visual.ts lines
199-205): width = xScale.rangeBand(), height = height - yScale(value),
x = xScale(category), y = yScale(value), fill = color.  opacity is the
fill-opacity the rect already carried (none for a freshly entered rect). -/
def mkBar (xs : BandScale) (e : ℚ) (m : Option ℚ) (dp : BarchartDataPoint)
    (opacity : Option ℚ) : BarPrim :=
  { datum := dp
    width := xs.rangeBand
    height := (linearScale e m dp.value).map (fun yv => e - yv)
    x := xs.apply dp.category
    y := linearScale e m dp.value
    fill := dp.color
    fillOpacity := opacity }

/-- The d3 v3 data join of visual.ts lines 192-205 and 221, keyed by array
position: one rect per data point; a rect that already existed at the
same index keeps its fill-opacity (enter appends a bare rect, the merged
update selection sets the geometry attributes, exit removes surplus
rects). -/
def buildBars (xs : BandScale) (e : ℚ) (m : Option ℚ) :
    List BarchartDataPoint → List BarPrim → List BarPrim
  | [], _ => []
  | dp :: pts, old =>
    mkBar xs e m dp (old.head?.bind (fun b => b.fillOpacity)) ::
      buildBars xs e m pts old.tail

/-- The category scale built for a view model on a surface of the given
width: domain = the (de-duplicated) categories of the data points, range
[0, width], inner padding 0.1, outer padding 0.2. -/
def xScaleOf (vm : BarchartViewModel) (width : ℚ) : BandScale :=
  { domain := dedupFirst (vm.dataPoints.map (fun dp => dp.category))
    start := 0
    stop := width
    padding := 1/10
    outerPadding := 1/5 }

/-- The rendering body of Visual.update (visual.ts lines 156-222) for an
already transformed view model: persist the settings, size the svg to
the full viewport, reserve 25 units of height when the axis is shown,
restyle the axis font, rebuild the scales, re-anchor and redraw the
axis, and reconcile the bars. -/
def renderUpdate (vm : BarchartViewModel) (viewport : ℚ × ℚ)
    (s : VisualState) : VisualState :=
  let width := viewport.1
  let e := effectivePlotHeight vm.settings.enableAxisShow viewport.2
  let xs := xScaleOf vm width
  { svgWidth := width
    svgHeight := viewport.2
    chartSettings := vm.settings
    bars := buildBars xs e vm.dataMax vm.dataPoints s.bars
    xAxis := { transformY := e
               ticks := xs.domain
               fontSize := (min e width) * (4/100) } }

/-- Visual.update: transform the host data, then render; a TypeError
thrown inside visualTransform propagates before any state is touched. -/
def update (options : VisualUpdateOptions) (host : IVisualHost)
    (s : VisualState) : Except JSError VisualState :=
  (visualTransform options host).map (fun vm => renderUpdate vm options.viewport s)

/-- The click handler's synchronous half (visual.ts line 210): clicking
the bar at index i asks selectionManager.select for that bar's bound
selection identity; none when no bar sits at i. -/
def clickRequest (bars : List BarPrim) (i : Nat) : Option Nat :=
  bars[i]?.map (fun b => b.datum.selectionID)

/-- The click handler's asynchronous continuation (visual.ts lines
211-218): once the selection result ids arrives, every bar's
fill-opacity is set to 0.5 if ids is non-empty and 1 otherwise, and then
the clicked bar (d3.select(this)) is set back to 1. -/
def selectionCallback (bars : List BarPrim) (i : Nat) (ids : List Nat) :
    List BarPrim :=
  let dimmed := bars.map (fun b =>
    { b with fillOpacity := some (if 0 < ids.length then 1/2 else 1) })
  match dimmed[i]? with
  | some b => dimmed.set i { b with fillOpacity := some 1 }
  | none => dimmed

/-! Concrete fixtures used by counterexamples and witnesses. -/

/-- A concrete host: constant palette, identity selection-id factory. -/
def demoHost : IVisualHost :=
  { getColor := fun _ => "#01B8AA", mkSelectionId := fun i => i }

/-- The renderer state right after the constructor: empty bar container,
empty axis group. -/
def demoState0 : VisualState :=
  { svgWidth := 0
    svgHeight := 0
    chartSettings := defaultSettings
    bars := []
    xAxis := { transformY := 0, ticks := [], fontSize := 0 } }

/-- An update whose table carries a categories field that is present but
an empty array (and a perfectly good value column). -/
def emptyCategoriesOptions : VisualUpdateOptions :=
  { dataViews := some
      [{ categorical := some
           { categories := some []
             values := some [{ values := [1], maxLocal := some 1 }] }
         metadata := { objects := none } }]
    viewport := (400, 300) }

/-- getOptionValue (some objs) factors through the composite lookup at its
own key path: the result depends on nothing else in the maps. -/
theorem getOptionValue_resolve (objs : DataViewObjects) (n p : String)
    (d : JSValue) :
    getOptionValue (some objs) n p d =
      (match (objs.lookup n).bind (fun o => o.lookup p) with
       | none => d
       | some v => if v.looseUndef then d else v) := by
  simp only [getOptionValue]
  cases h : objs.lookup n with
  | none => rfl
  | some object =>
    cases hp : object.lookup p with
    | none => simp [hp, JSValue.looseUndef]
    | some v => simp [hp]

/-- C1, counterexample: the input below has a categorical section whose
categories field is present but holds no category column at all, yet
visualTransform does not return the empty view model — the guard
evaluates categories[0].source on undefined and a TypeError escapes. -/
theorem c1_counterexample_empty_categories_throws :
    emptyCategoriesOptions.dataViews = some
      [{ categorical := some
           { categories := some []
             values := some [{ values := [1], maxLocal := some 1 }] }
         metadata := { objects := none } }] ∧
    visualTransform emptyCategoriesOptions demoHost =
      Except.error JSError.typeError := ⟨rfl, rfl⟩

/-- C1, amended: visualTransform returns the canonical empty view model
(dataPoints = [], dataMax = 0, default settings with show = false) and
raises no error whenever dataViews is absent or empty, the primary
view's categorical section is absent, its categories field is absent,
the first category column's source descriptor is absent, or (with a
category column and its source present) the values field is absent.
When categories or values is present but an empty array, the code
instead dereferences a missing element 0 and throws a TypeError, as the
counterexample shows. -/
theorem c1_amended_empty_view_model (options : VisualUpdateOptions)
    (host : IVisualHost)
    (h : options.dataViews = none ∨
         options.dataViews = some ([] : List DataView) ∨
         (∃ dv0 rest, options.dataViews = some (dv0 :: rest) ∧
           (dv0.categorical = none ∨
            ∃ c, dv0.categorical = some c ∧
              (c.categories = none ∨
               ∃ cat0 cs, c.categories = some (cat0 :: cs) ∧
                 (cat0.source = none ∨
                  (cat0.source ≠ none ∧ c.values = none)))))) :
    visualTransform options host = Except.ok emptyViewModel := by
  obtain h | h | ⟨dv0, rest, hdv, hc⟩ := h
  · simp [visualTransform, h]
  · simp [visualTransform, h]
  obtain hc | ⟨c, hcat, hc⟩ := hc
  · simp [visualTransform, hdv, hc]
  obtain hc | ⟨cat0, cs, hcols, hc⟩ := hc
  · simp [visualTransform, hdv, hcat, hc]
  obtain hsrc | ⟨hsrc, hvals⟩ := hc
  · simp [visualTransform, hdv, hcat, hcols, hsrc]
  · obtain ⟨src, hsrc⟩ := Option.ne_none_iff_exists.mp hsrc
    simp [visualTransform, hdv, hcat, hcols, ← hsrc, hvals]

/-- C1, witness for the amended theorem: an update with no dataViews at
all yields the empty view model. -/
theorem c1_amended_witness :
    visualTransform { dataViews := none, viewport := (400, 300) } demoHost =
      Except.ok emptyViewModel :=
  c1_amended_empty_view_model _ demoHost (Or.inl rfl)

/-- C8: getOptionValue returns the stored property when the objects map,
the named object, and the property all exist and the property is not
(loosely) undefined; it returns the supplied default when the objects
map is absent, the named object is missing, or the property reads as
undefined; it is a total function (nothing to throw); and its result
depends only on the composite lookup at its own key path, so a missing
property under one key cannot affect the resolution of any other key. -/
theorem c8_getOptionValue_resolution (objects : Option DataViewObjects)
    (objectName propertyName : String) (defaultValue : JSValue) :
    (∀ objs object v, objects = some objs →
        objs.lookup objectName = some object →
        object.lookup propertyName = some v →
        v.looseUndef = false →
        getOptionValue objects objectName propertyName defaultValue = v) ∧
    (objects = none →
        getOptionValue objects objectName propertyName defaultValue =
          defaultValue) ∧
    (∀ objs, objects = some objs → objs.lookup objectName = none →
        getOptionValue objects objectName propertyName defaultValue =
          defaultValue) ∧
    (∀ objs object, objects = some objs →
        objs.lookup objectName = some object →
        ((object.lookup propertyName).getD JSValue.undef).looseUndef = true →
        getOptionValue objects objectName propertyName defaultValue =
          defaultValue) ∧
    (∀ objs1 objs2 : DataViewObjects,
        (objs1.lookup objectName).bind (fun o => o.lookup propertyName) =
          (objs2.lookup objectName).bind (fun o => o.lookup propertyName) →
        getOptionValue (some objs1) objectName propertyName defaultValue =
          getOptionValue (some objs2) objectName propertyName defaultValue) := by
  refine ⟨?_, ?_, ?_, ?_, ?_⟩
  · rintro objs object v rfl h1 h2 h3
    simp [getOptionValue, h1, h2, h3]
  · rintro rfl; rfl
  · rintro objs rfl h1
    simp [getOptionValue, h1]
  · rintro objs object rfl h1 h2
    simp [getOptionValue, h1, h2]
  · intro objs1 objs2 h
    rw [getOptionValue_resolve, getOptionValue_resolve, h]

/-- A metadata objects map whose enableAxis.show is the boolean true. -/
def demoObjectsShowTrue : DataViewObjects :=
  [("enableAxis", [("show", JSValue.bool true)])]

/-- C8, witness: with enableAxis.show stored as true and default false,
getOptionValue returns the stored true. -/
theorem c8_witness :
    getOptionValue (some demoObjectsShowTrue) "enableAxis" "show"
      (JSValue.bool false) = JSValue.bool true :=
  (c8_getOptionValue_resolution (some demoObjectsShowTrue) "enableAxis"
      "show" (JSValue.bool false)).1
    demoObjectsShowTrue [("show", JSValue.bool true)] (JSValue.bool true)
    rfl rfl rfl rfl

/-- C10: because the source compares with loose inequality
(property != undefined), a property stored as null resolves to the
default exactly like an absent property, and only a property that is
neither null nor undefined is returned as-is. -/
theorem c10_null_property_falls_back (n p : String) (d : JSValue) :
    (∀ objs object, objs.lookup n = some object →
        object.lookup p = some JSValue.nullv →
        getOptionValue (some objs) n p d = d) ∧
    (∀ objs object, objs.lookup n = some object →
        object.lookup p = none →
        getOptionValue (some objs) n p d = d) ∧
    (∀ objs object v, objs.lookup n = some object →
        object.lookup p = some v →
        v ≠ JSValue.nullv → v ≠ JSValue.undef →
        getOptionValue (some objs) n p d = v) := by
  refine ⟨?_, ?_, ?_⟩
  · intro objs object h1 h2
    simp [getOptionValue, h1, h2, JSValue.looseUndef]
  · intro objs object h1 h2
    simp [getOptionValue, h1, h2, JSValue.looseUndef]
  · intro objs object v h1 h2 hn hu
    have hl : v.looseUndef = false := by
      cases v with
      | undef => exact absurd rfl hu
      | nullv => exact absurd rfl hn
      | bool b => rfl
      | num q => rfl
      | str s => rfl
    simp [getOptionValue, h1, h2, hl]

/-- A metadata objects map whose enableAxis.show is stored as null. -/
def demoObjectsShowNull : DataViewObjects :=
  [("enableAxis", [("show", JSValue.nullv)])]

/-- C10, witness: a null enableAxis.show resolves to the supplied default
(here true), not to null. -/
theorem c10_witness :
    getOptionValue (some demoObjectsShowNull) "enableAxis" "show"
      (JSValue.bool true) = JSValue.bool true :=
  (c10_null_property_falls_back "enableAxis" "show" (JSValue.bool true)).1
    demoObjectsShowNull [("show", JSValue.nullv)] rfl rfl

/-- When the table passes the structural guard — a first data view with a
categorical section, a first category column whose source is present,
and a first value column — visualTransform succeeds and produces exactly
the row loop's output. -/
theorem visualTransform_ok (options : VisualUpdateOptions)
    (host : IVisualHost) (dv0 : DataView) (rest : List DataView)
    (c : DataViewCategorical) (category : DataViewCategoryColumn)
    (cs : List DataViewCategoryColumn) (dataValue : DataViewValueColumn)
    (vs : List DataViewValueColumn) (src : String)
    (h1 : options.dataViews = some (dv0 :: rest))
    (h2 : dv0.categorical = some c)
    (h3 : c.categories = some (category :: cs))
    (h4 : category.source = some src)
    (h5 : c.values = some (dataValue :: vs)) :
    visualTransform options host = Except.ok
      { dataPoints :=
          (List.range (max category.values.length dataValue.values.length)).map
            (fun i =>
              { category := category.values[i]?
                value := dataValue.values[i]?
                color := host.getColor category.values[i]?
                selectionID := host.mkSelectionId i })
        dataMax := dataValue.maxLocal
        settings :=
          { enableAxisShow := (getOptionValue dv0.metadata.objects
              "enableAxis" "show"
              (.bool defaultSettings.enableAxisShow)).truthy } } := by
  simp [visualTransform, h1, h2, h3, h4, h5]

/-- C3: for every table passing the structural guard, the dataPoints array
has length max(category column length, value column length), and each
data point reads its category and value fields by plain index lookup, so
indices beyond one column's bound carry none (undefined) for that field
rather than raising an error. -/
theorem c3_row_count_is_max (options : VisualUpdateOptions)
    (host : IVisualHost) (dv0 : DataView) (rest : List DataView)
    (c : DataViewCategorical) (category : DataViewCategoryColumn)
    (cs : List DataViewCategoryColumn) (dataValue : DataViewValueColumn)
    (vs : List DataViewValueColumn) (src : String)
    (h1 : options.dataViews = some (dv0 :: rest))
    (h2 : dv0.categorical = some c)
    (h3 : c.categories = some (category :: cs))
    (h4 : category.source = some src)
    (h5 : c.values = some (dataValue :: vs)) :
    ∃ vm, visualTransform options host = Except.ok vm ∧
      vm.dataPoints.length =
        max category.values.length dataValue.values.length ∧
      ∀ i, i < vm.dataPoints.length →
        vm.dataPoints[i]?.map (fun dp => dp.category) =
          some category.values[i]? ∧
        vm.dataPoints[i]?.map (fun dp => dp.value) =
          some dataValue.values[i]? := by
  refine ⟨_, visualTransform_ok options host dv0 rest c category cs dataValue
    vs src h1 h2 h3 h4 h5, ?_, ?_⟩
  · simp
  · intro i hi
    simp only [List.length_map, List.length_range] at hi
    simp [List.getElem?_map, List.getElem?_range, hi]

/-- C4: for every table passing the structural guard, the view model's
dataMax is the value column's reported maxLocal field verbatim — it is
never recomputed from the data points. -/
theorem c4_dataMax_verbatim (options : VisualUpdateOptions)
    (host : IVisualHost) (dv0 : DataView) (rest : List DataView)
    (c : DataViewCategorical) (category : DataViewCategoryColumn)
    (cs : List DataViewCategoryColumn) (dataValue : DataViewValueColumn)
    (vs : List DataViewValueColumn) (src : String)
    (h1 : options.dataViews = some (dv0 :: rest))
    (h2 : dv0.categorical = some c)
    (h3 : c.categories = some (category :: cs))
    (h4 : category.source = some src)
    (h5 : c.values = some (dataValue :: vs)) :
    ∃ vm, visualTransform options host = Except.ok vm ∧
      vm.dataMax = dataValue.maxLocal :=
  ⟨_, visualTransform_ok options host dv0 rest c category cs dataValue vs src
    h1 h2 h3 h4 h5, rfl⟩

/-- A category column three entries long. -/
def cat3Column : DataViewCategoryColumn :=
  { source := some "Country", values := ["China", "USA", "India"] }

/-- A value column five entries long, every value at most 10, but with a
reported maxLocal of 11. -/
def val5Column : DataViewValueColumn :=
  { values := [10, 8, 9, 5, 7], maxLocal := some 11 }

/-- An update carrying the asymmetric 3-category / 5-value table. -/
def asymmetricOptions : VisualUpdateOptions :=
  { dataViews := some
      [{ categorical := some
           { categories := some [cat3Column], values := some [val5Column] }
         metadata := { objects := none } }]
    viewport := (400, 300) }

/-- C3, witness: the 3-category / 5-value table yields five data points
whose per-index fields are the column lookups (undefined category for
rows 3 and 4). -/
theorem c3_witness :
    ∃ vm, visualTransform asymmetricOptions demoHost = Except.ok vm ∧
      vm.dataPoints.length =
        max cat3Column.values.length val5Column.values.length ∧
      ∀ i, i < vm.dataPoints.length →
        vm.dataPoints[i]?.map (fun dp => dp.category) =
          some cat3Column.values[i]? ∧
        vm.dataPoints[i]?.map (fun dp => dp.value) =
          some val5Column.values[i]? :=
  c3_row_count_is_max asymmetricOptions demoHost _ [] _ cat3Column []
    val5Column [] "Country" rfl rfl rfl rfl rfl

/-- C4, witness: with every point value at most 10 but reported maxLocal
11, the view model's dataMax is still 11. -/
theorem c4_witness :
    ∃ vm, visualTransform asymmetricOptions demoHost = Except.ok vm ∧
      vm.dataMax = some 11 :=
  c4_dataMax_verbatim asymmetricOptions demoHost _ [] _ cat3Column []
    val5Column [] "Country" rfl rfl rfl rfl rfl

/-- The data join produces exactly one rect per data point. -/
theorem buildBars_length (xs : BandScale) (e : ℚ) (m : Option ℚ)
    (pts : List BarchartDataPoint) (old : List BarPrim) :
    (buildBars xs e m pts old).length = pts.length := by
  induction pts generalizing old with
  | nil => rfl
  | cons dp pts ih => simp [buildBars, ih]

/-- The rect at index i after the join: the attributes of data point i,
with the fill-opacity the rect at index i carried before (none when the
rect is freshly entered). -/
theorem buildBars_getElem? (xs : BandScale) (e : ℚ) (m : Option ℚ)
    (pts : List BarchartDataPoint) (old : List BarPrim) (i : Nat) :
    (buildBars xs e m pts old)[i]? =
      pts[i]?.map (fun dp =>
        mkBar xs e m dp (old[i]?.bind (fun b => b.fillOpacity))) := by
  induction pts generalizing old i with
  | nil => simp [buildBars]
  | cons dp pts ih =>
    cases i with
    | zero => simp [buildBars, List.head?_eq_getElem?]
    | succ n => simp [buildBars, ih, List.getElem?_tail]

/-- A view model whose single data point has axis display disabled. -/
def oneBarViewModel : BarchartViewModel :=
  { dataPoints :=
      [{ value := some 5, category := some "China", color := "#01B8AA"
         selectionID := 0 }]
    dataMax := some 10
    settings := { enableAxisShow := false } }

/-- C2, counterexample: rendering a one-point view model with
enableAxis.show = false still draws one axis tick against the category
scale — the xAxis group is re-called unconditionally, so turning the
axis off does not remove the tick primitives. -/
theorem c2_counterexample_ticks_despite_hidden_axis :
    oneBarViewModel.settings.enableAxisShow = false ∧
    (renderUpdate oneBarViewModel (400, 300) demoState0).xAxis.ticks =
      [some "China"] := ⟨rfl, rfl⟩

/-- C2, amended: on every render the axis ticks are redrawn against the
category scale and anchored at the bottom of the effective plot area
regardless of settings.enableAxis.show; toggling show only moves the
anchor (full height versus height − 25), it never removes the ticks. -/
theorem c2_amended_axis_always_drawn (vm : BarchartViewModel)
    (viewport : ℚ × ℚ) (s : VisualState) :
    (renderUpdate vm viewport s).xAxis.ticks =
      dedupFirst (vm.dataPoints.map (fun dp => dp.category)) ∧
    (renderUpdate vm viewport s).xAxis.transformY =
      effectivePlotHeight vm.settings.enableAxisShow viewport.2 := ⟨rfl, rfl⟩

/-- C5: the effective plot height — the anchor of the axis and the top of
the value scale — equals the surface height minus exactly 25 iff
enableAxis.show is true and equals the full surface height iff it is
false, while the category scale always spans [0, width] and the svg
keeps the full viewport width. -/
theorem c5_effective_height (vm : BarchartViewModel) (viewport : ℚ × ℚ)
    (s : VisualState) :
    ((renderUpdate vm viewport s).xAxis.transformY = viewport.2 - 25 ↔
      vm.settings.enableAxisShow = true) ∧
    ((renderUpdate vm viewport s).xAxis.transformY = viewport.2 ↔
      vm.settings.enableAxisShow = false) ∧
    (xScaleOf vm viewport.1).start = 0 ∧
    (xScaleOf vm viewport.1).stop = viewport.1 ∧
    (renderUpdate vm viewport s).svgWidth = viewport.1 := by
  have h25 : viewport.2 - 25 ≠ viewport.2 := by
    intro h
    have := sub_eq_self.mp h
    norm_num at this
  have ht : (renderUpdate vm viewport s).xAxis.transformY =
      effectivePlotHeight vm.settings.enableAxisShow viewport.2 := rfl
  rw [ht]
  cases h : vm.settings.enableAxisShow with
  | false =>
    refine ⟨?_, ?_, rfl, rfl, rfl⟩
    · exact ⟨fun hh => absurd hh.symm h25, fun hh => Bool.noConfusion hh⟩
    · exact ⟨fun _ => rfl, fun _ => rfl⟩
  | true =>
    refine ⟨?_, ?_, rfl, rfl, rfl⟩
    · exact ⟨fun _ => rfl, fun _ => rfl⟩
    · exact ⟨fun hh => absurd hh h25, fun hh => Bool.noConfusion hh⟩

/-- C6: the bar set is reconciled against the data points keyed by array
position — one rect per data point (surplus rects removed, missing ones
created) — and the rect at index i carries width = the band width,
x = the category scale at its category, y = the value scale (linear
[0, dataMax] → [effectiveHeight, 0]) at its value, height =
effectiveHeight − valueScale(value), and fill = its color. -/
theorem c6_bar_reconciliation (vm : BarchartViewModel) (viewport : ℚ × ℚ)
    (s : VisualState) :
    (renderUpdate vm viewport s).bars.length = vm.dataPoints.length ∧
    ∀ (i : Nat) (dp : BarchartDataPoint), vm.dataPoints[i]? = some dp →
      ∃ b : BarPrim, (renderUpdate vm viewport s).bars[i]? = some b ∧
        b.width = (xScaleOf vm viewport.1).rangeBand ∧
        b.x = (xScaleOf vm viewport.1).apply dp.category ∧
        b.y = linearScale
          (effectivePlotHeight vm.settings.enableAxisShow viewport.2)
          vm.dataMax dp.value ∧
        b.height = (linearScale
          (effectivePlotHeight vm.settings.enableAxisShow viewport.2)
          vm.dataMax dp.value).map (fun yv =>
            effectivePlotHeight vm.settings.enableAxisShow viewport.2 - yv) ∧
        b.fill = dp.color := by
  constructor
  · exact buildBars_length _ _ _ _ _
  · intro i dp hdp
    have hb : (renderUpdate vm viewport s).bars[i]? =
        some (mkBar (xScaleOf vm viewport.1)
          (effectivePlotHeight vm.settings.enableAxisShow viewport.2)
          vm.dataMax dp (s.bars[i]?.bind (fun b => b.fillOpacity))) := by
      have := buildBars_getElem? (xScaleOf vm viewport.1)
        (effectivePlotHeight vm.settings.enableAxisShow viewport.2)
        vm.dataMax vm.dataPoints s.bars i
      rw [hdp] at this
      exact this
    exact ⟨_, hb, rfl, rfl, rfl, rfl, rfl⟩

/-- C6, witness: index 0 of the one-bar view model rendered at 400 × 300
is a rect with the stated attributes. -/
theorem c6_witness :
    ∃ b : BarPrim,
      (renderUpdate oneBarViewModel (400, 300) demoState0).bars[0]? =
        some b ∧
      b.width = (xScaleOf oneBarViewModel 400).rangeBand ∧
      b.x = (xScaleOf oneBarViewModel 400).apply (some "China") ∧
      b.y = linearScale 300 (some 10) (some 5) ∧
      b.height = (linearScale 300 (some 10) (some 5)).map
        (fun yv => 300 - yv) ∧
      b.fill = "#01B8AA" :=
  (c6_bar_reconciliation oneBarViewModel (400, 300) demoState0).2 0
    { value := some 5, category := some "China", color := "#01B8AA"
      selectionID := 0 } rfl

/-- C9: rendering is idempotent — a second render with the identical view
model and identical surface dimensions reproduces the first render's
state exactly (same rects with the same positions, sizes, colors and
opacities, and the same axis state). -/
theorem c9_render_idempotent (vm : BarchartViewModel) (viewport : ℚ × ℚ)
    (s : VisualState) :
    renderUpdate vm viewport (renderUpdate vm viewport s) =
      renderUpdate vm viewport s := by
  have key : ∀ (xs : BandScale) (e : ℚ) (m : Option ℚ)
      (pts : List BarchartDataPoint) (old : List BarPrim),
      buildBars xs e m pts (buildBars xs e m pts old) =
        buildBars xs e m pts old := by
    intro xs e m pts
    induction pts with
    | nil => intro old; rfl
    | cons dp pts ih =>
      intro old
      simp only [buildBars, List.head?_cons, List.tail_cons, Option.some_bind,
        mkBar]
      exact congrArg _ (ih old.tail)
  simp only [renderUpdate]
  rw [key]

/-- Three bars with distinct selection identities and unset opacity. -/
def threeBars : List BarPrim :=
  (buildBars (xScaleOf oneBarViewModel 400) 300 (some 10)
    [{ value := some 5, category := some "China", color := "#01B8AA"
       selectionID := 0 },
     { value := some 8, category := some "USA", color := "#01B8AA"
       selectionID := 1 },
     { value := some 3, category := some "India", color := "#01B8AA"
       selectionID := 2 }] [])

/-- C7: clicking the bar at index i requests selection of exactly that
bar's bound selection identity, and when the asynchronous result ids
arrives every bar's fill-opacity becomes 0.5 if ids is non-empty and 1
if it is empty, after which the clicked bar is forced back to 1. -/
theorem c7_click_selection (bars : List BarPrim) (i : Nat)
    (ids : List Nat) (hi : i < bars.length) :
    (∃ b : BarPrim, bars[i]? = some b ∧
      clickRequest bars i = some b.datum.selectionID) ∧
    (selectionCallback bars i ids).length = bars.length ∧
    (∀ j : Nat, j < bars.length →
      (selectionCallback bars i ids)[j]?.map
          (fun b : BarPrim => b.fillOpacity) =
        some (some (if j = i then 1
          else if 0 < ids.length then (1 : ℚ)/2 else 1))) := by
  have hbi : bars[i]? = some bars[i] := List.getElem?_eq_getElem hi
  have hdim : ∀ (j : Nat) (hj : j < bars.length), (bars.map (fun b : BarPrim => { b with fillOpacity := some (if 0 < ids.length then (1 : ℚ)/2 else 1) }))[j]? = some ({ bars.get ⟨j, hj⟩ with fillOpacity := some (if 0 < ids.length then (1 : ℚ)/2 else 1) } : BarPrim) := by
    intro j hj
    rw [List.getElem?_map, List.getElem?_eq_getElem hj]
    rfl
  refine ⟨⟨bars[i], hbi, ?_⟩, ?_, ?_⟩
  · simp [clickRequest, hbi]
  · simp only [selectionCallback]
    rw [hdim i hi]
    simp
  · intro j hj
    simp only [selectionCallback]
    rw [hdim i hi]
    by_cases hji : j = i
    · subst hji
      rw [List.getElem?_set_self]
      · simp
      · simpa using hj
    · rw [List.getElem?_set_ne (fun h => hji h.symm), hdim j hj]
      simp [hji]

/-- C7, witness: clicking bar 0 of three bars requests identity 0, and a
non-empty selection result dims bars 1 and 2 to opacity 0.5 while bar 0
ends at opacity 1. -/
theorem c7_witness :
    (∃ b : BarPrim, threeBars[0]? = some b ∧
      clickRequest threeBars 0 = some b.datum.selectionID) ∧
    (selectionCallback threeBars 0 [0]).length = threeBars.length ∧
    (∀ j : Nat, j < threeBars.length →
      (selectionCallback threeBars 0 [0])[j]?.map
          (fun b : BarPrim => b.fillOpacity) =
        some (some (if j = 0 then 1
          else if 0 < [0].length then (1 : ℚ)/2 else 1))) :=
  c7_click_selection threeBars 0 [0] (by decide)

end Barchart
